import Mathlib

/-!
Verification of the PrismAI ML service core against its specification.

Shallow embedding of the Python sources
src/ml_service/preprocessing.py, src/ml_service/model_training.py and
src/ml_service/prediction_service.py.  Numeric data is embedded as the
rationals; Python None / numpy NaN cells are Option.none; a raised Python
exception is Except.error.  Calls into the sklearn / numpy / joblib
libraries whose numeric outcome is irrelevant to the verified properties
are abstracted as oracle parameters whose Except.error outcome models an
exception raised by the library call.
-/

namespace PrismAI

/-! ## preprocessing.py : lead scoring helpers -/

/-- Free email providers from calculate_email_domain_score (the source names
the list business_domains even though it holds the free providers). -/
def business_domains : List String :=
  ["gmail.com", "yahoo.com", "hotmail.com", "outlook.com", "aol.com"]

/-- Python str.split on a single separator character, over the character
list of the string: splitting the empty text gives one empty part, and each
separator occurrence opens a new part. -/
def splitOnChar (sep : Char) : List Char → List (List Char)
  | [] => [[]]
  | c :: rest =>
    let r := splitOnChar sep rest
    if c = sep then [] :: r
    else
      match r with
      | [] => [[c]]
      | g :: gs => (c :: g) :: gs

/-- ASCII lower-casing of one character, as str.lower acts on the domain
part of an email address. -/
def lowerChar (c : Char) : Char :=
  if 65 ≤ c.toNat ∧ c.toNat ≤ 90 then Char.ofNat (c.toNat + 32) else c

/-- Embedding of preprocessing.calculate_email_domain_score.  A missing email
(Python None / NaN) is Option.none; the empty string is falsy in Python, so
both score 0.  Otherwise the domain is the text after the first "@" sign
(element 1 of the split), lower-cased, or the empty string when the address
has no "@" at all. -/
def calculate_email_domain_score (email : Option String) : Int :=
  match email with
  | none => 0
  | some e =>
    if e = "" then 0
    else
      let domain : String :=
        if e.data.contains '@' then
          ⟨(((splitOnChar '@' e.data).get? 1).getD []).map lowerChar⟩
        else ""
      if domain ∉ business_domains then 15 else -5

/-! ## prediction_service.py : labels and confidence heuristics -/

/-- Embedding of the prediction_class expression used at
prediction_service.py lines 69 and 190:
high if probability is above 0.7 else medium if above 0.4 else low. -/
def predictionClass (p : ℚ) : String :=
  if p > 7/10 then "high" else if p > 4/10 then "medium" else "low"

/-- Embedding of PredictionService._categorize_lifetime_value. -/
def categorize_lifetime_value (value : ℚ) : String :=
  if value > 10000 then "high_value"
  else if value > 1000 then "medium_value"
  else if value > 100 then "low_value"
  else "very_low_value"

/-- numpy max of a probability row; numpy raises on an empty array, which the
call sites never produce, so the empty case is modeled as 0. -/
def npMax : List ℚ → ℚ
  | [] => 0
  | x :: xs => xs.foldl max x

/-- Embedding of PredictionService._calculate_prediction_confidence:
the mean of the clamped distance from 0.5 and the maximal class
probability. -/
def calculate_prediction_confidence (probability : ℚ) (probabilities : List ℚ) : ℚ :=
  let confidence := min (|probability - 1/2| * 2) 1
  (confidence + npMax probabilities) / 2

/-- Embedding of PredictionService._calculate_regression_confidence.  The
hasattr guard on predict always holds for a fitted estimator, so the
magnitude heuristic branch is the one taken. -/
def calculate_regression_confidence (prediction : ℚ) : ℚ :=
  min (|prediction| / 1000) (9/10) + 1/10

/-! ## model_training.py : feature importance -/

/-- The fitted estimator attributes inspected by get_feature_importance:
feature_importances_ is exposed by the tree ensembles, coefs_ by the
multilayer perceptrons (weight-coefficient models).  The numpy flattening of
coefs_ is modeled as an already flat list of weights. -/
structure MLModel where
  feature_importances_ : Option (List ℚ)
  coefs_ : Option (List ℚ)
deriving Repr, DecidableEq

/-- The raw importance vector chosen by the attribute dispatch in
ModelTrainer.get_feature_importance: native importance scores when exposed,
else absolute weight coefficients, else the uniform vector. -/
def rawImportance (model : MLModel) (feature_names : List String) : List ℚ :=
  match model.feature_importances_ with
  | some imp => imp
  | none =>
    match model.coefs_ with
    | some cs => cs.map (fun c => |c|)
    | none => feature_names.map (fun _ => 1 / (feature_names.length : ℚ))

/-- Embedding of ModelTrainer.get_feature_importance.  The raw vector is
divided by its own sum (numpy elementwise division; a zero sum yields NaN
entries in Python and 0 in this rational embedding - under both semantics
the entries then fail to sum to 1) and zipped with the feature names.
Python builds dict(zip(names, importance)); the association list returned
here coincides with that dict when the names are distinct. -/
def get_feature_importance (model : MLModel) (feature_names : List String) :
    List (String × ℚ) :=
  let importance := rawImportance model feature_names
  let normalized := importance.map (fun x => x / importance.sum)
  feature_names.zip normalized

/-! ## model_training.py / prediction_service.py : the artifact store -/

/-- One persisted artifact as surfaced by ModelTrainer.get_model_list: the
metadata fields the selection logic reads plus the sibling blob path.
training_date is the ISO timestamp written by train_model; its total order
is embedded as Nat (lexicographic comparison of ISO strings agrees with
chronological order). -/
structure ModelRecord where
  model_type : String
  model_name : String
  training_date : Nat
  model_path : String
deriving Repr, DecidableEq

/-- Stable descending insertion by training_date: a record moves past an
entry only when that entry is strictly older, so records with equal dates
keep their relative order, matching Python sorted with reverse True, which
is stable. -/
def insertByDateDesc (m : ModelRecord) : List ModelRecord → List ModelRecord
  | [] => [m]
  | x :: xs =>
    if m.training_date ≥ x.training_date then m :: x :: xs
    else x :: insertByDateDesc m xs

/-- Embedding of ModelTrainer.get_model_list for one owner: the stored
artifacts sorted by training_date, newest first. -/
def get_model_list (store : List ModelRecord) : List ModelRecord :=
  store.foldr insertByDateDesc []

/-- Python max(list, key) : the first element attaining the maximal key.
Python raises on an empty list; the call site below guards against that, so
the empty case is modeled as none. -/
def maxByDate : List ModelRecord → Option ModelRecord
  | [] => none
  | x :: xs =>
    some (xs.foldl (fun acc m => if m.training_date > acc.training_date then m else acc) x)

/-- Embedding of PredictionService._get_best_model_path.  The sorted model
list is filtered by model_type; when no artifact of that type exists the
result is none.  When a model_name is supplied (and non-empty: Python tests
its truthiness), the first exact name match is returned; every other path -
including a supplied name that matches nothing - falls through to the
artifact with the maximal training_date. -/
def get_best_model_path (store : List ModelRecord) (model_type : String)
    (model_name : Option String) : Option String :=
  let type_models := (get_model_list store).filter (fun m => m.model_type == model_type)
  if type_models.isEmpty then none
  else
    let named : Option ModelRecord :=
      match model_name with
      | some name =>
        if name = "" then none else type_models.find? (fun m => m.model_name == name)
      | none => none
    match named with
    | some m => some m.model_path
    | none => (maxByDate type_models).map (fun m => m.model_path)

/-! ## prediction_service.py : the two single-prediction operations -/

/-- Result of a public prediction operation: ok mirrors the success true
dictionary, err mirrors the uniform failure record with success false and
the error message.  The whole Python body is wrapped in try/except returning
err, so the operations are total - no exception escapes them. -/
inductive PredResult (α : Type)
  | ok (value : α)
  | err (error : String)
deriving Repr, DecidableEq

/-- Fields of the success record of predict_lead_conversion that the claims
refer to (the explanation dictionary and static model_info entries carry no
verified property and are not modeled). -/
structure LeadPrediction where
  conversion_probability : ℚ
  confidence : ℚ
  prediction_class : String
  model_path : String
deriving Repr, DecidableEq

/-- Embedding of PredictionService.predict_lead_conversion.  Feature
preparation, model deserialization and the sklearn predict_proba call are
abstracted as the infer oracle mapping the resolved path to the probability
row of the single record; an Except.error outcome models an exception
raised there, which the surrounding try/except converts into the failure
record.  The positive-class probability is row index 1 when the row has
more than one entry, else index 0 (an empty row would raise in Python and
is unreachable; getD 0 keeps the embedding total). -/
def predict_lead_conversion (store : List ModelRecord) (model_name : Option String)
    (infer : String → Except String (List ℚ)) : PredResult LeadPrediction :=
  match get_best_model_path store "lead_conversion" model_name with
  | none => .err "No trained model available for lead conversion"
  | some path =>
    match infer path with
    | .error e => .err e
    | .ok proba =>
      let p := if proba.length > 1 then (proba.get? 1).getD 0 else (proba.get? 0).getD 0
      .ok { conversion_probability := p
            confidence := calculate_prediction_confidence p proba
            prediction_class := predictionClass p
            model_path := path }

/-- Fields of the success record of predict_customer_lifetime_value that the
claims refer to. -/
structure CLVPrediction where
  lifetime_value : ℚ
  confidence : ℚ
  value_category : String
  model_path : String
deriving Repr, DecidableEq

/-- Embedding of PredictionService.predict_customer_lifetime_value.  The
infer oracle yields the raw regression prediction for the record; the
prediction is clamped to be nonnegative before confidence and category are
derived from it. -/
def predict_customer_lifetime_value (store : List ModelRecord)
    (model_name : Option String) (infer : String → Except String ℚ) :
    PredResult CLVPrediction :=
  match get_best_model_path store "customer_lifetime_value" model_name with
  | none => .err "No trained model available for lifetime value prediction"
  | some path =>
    match infer path with
    | .error e => .err e
    | .ok pred =>
      let ltv := max 0 pred
      .ok { lifetime_value := ltv
            confidence := calculate_regression_confidence ltv
            value_category := categorize_lifetime_value ltv
            model_path := path }

/-! ## model_training.py : the algorithm registry and train_model -/

/-- The registry ModelTrainer.model_configs keyed by (model_type, algorithm).
Each algorithm maps to the key set of its hyperparameter grid; the concrete
candidate values never influence control flow (only emptiness of the grid
does: an empty grid skips GridSearchCV) and are elided.  The estimator
constructors live behind the fit oracle of TrainEnv. -/
def model_configs : List (String × List (String × List String)) :=
  [("lead_conversion",
    [("random_forest",
      ["n_estimators", "max_depth", "min_samples_split", "min_samples_leaf"]),
     ("gradient_boosting", ["n_estimators", "learning_rate", "max_depth"]),
     ("logistic_regression", ["C", "max_iter"]),
     ("neural_network",
      ["hidden_layer_sizes", "activation", "learning_rate", "max_iter"])]),
   ("customer_lifetime_value",
    [("random_forest",
      ["n_estimators", "max_depth", "min_samples_split", "min_samples_leaf"]),
     ("gradient_boosting", ["n_estimators", "learning_rate", "max_depth"]),
     ("linear_regression", []),
     ("neural_network",
      ["hidden_layer_sizes", "activation", "learning_rate", "max_iter"])])]

/-- Outcomes of the library calls inside train_model, abstracted: split for
train_test_split (the two resulting sample counts), fit for
GridSearchCV.fit or the plain model.fit (the fitted estimator attributes
and the winning hyperparameters rendered as strings), metrics for
calculate_metrics, save for the joblib / json persistence, now for the
wall-clock training_date string.  An Except.error models an exception
raised by the call; train_model has no try/except, so it propagates. -/
structure TrainEnv where
  split : Except String (Nat × Nat)
  fit : Except String (MLModel × List (String × String))
  metrics : Except String (List (String × ℚ))
  save : Except String String
  now : String

/-- The metadata document train_model assembles (the model_class field,
which merely names the Python constructor, is not modeled). -/
structure ModelMetadata where
  model_type : String
  algorithm : String
  model_name : String
  user_id : String
  training_date : String
  training_samples : Nat
  test_samples : Nat
  features : List String
  best_params : List (String × String)
  feature_importance : List (String × ℚ)
  metrics : List (String × ℚ)
deriving Repr, DecidableEq

/-- The dictionary returned by train_model on its single return path, which
always carries success True. -/
structure TrainSuccess where
  model_path : String
  metadata : ModelMetadata
  metrics : List (String × ℚ)
deriving Repr, DecidableEq

/-- Embedding of ModelTrainer.train_model.  Except.error is a raised Python
exception: the two registry checks raise ValueError, and any exception from
the abstracted library calls propagates unhandled - the function contains
no try/except and has no return path carrying success False. -/
def train_model (env : TrainEnv) (model_type algorithm : String)
    (feature_names : List String) (model_name user_id : String) :
    Except String TrainSuccess :=
  match model_configs.lookup model_type with
  | none => .error ("Unknown model type: " ++ model_type)
  | some algos =>
    match algos.lookup algorithm with
    | none =>
      .error ("Unknown algorithm " ++ algorithm ++ " for model type " ++ model_type)
    | some ps => do
      let (nTrain, nTest) ← env.split
      let (model, grid_best) ← env.fit
      let best_params := if ps.isEmpty then ([] : List (String × String)) else grid_best
      let metrics ← env.metrics
      let fi := get_feature_importance model feature_names
      let metadata : ModelMetadata :=
        { model_type := model_type
          algorithm := algorithm
          model_name := model_name
          user_id := user_id
          training_date := env.now
          training_samples := nTrain
          test_samples := nTest
          features := feature_names
          best_params := best_params
          feature_importance := fi
          metrics := metrics }
      let path ← env.save
      .ok { model_path := path, metadata := metadata, metrics := metrics }

/-! ## preprocessing.py : the tabular data model -/

/-- One dataframe column: numeric cells (dtype np.number) or categorical
cells (dtype object).  Option.none is a missing value (NaN / None). -/
inductive ColumnData
  | numeric (cells : List (Option ℚ))
  | categorical (cells : List (Option String))
deriving Repr, DecidableEq

/-- A named dataframe column. -/
structure Column where
  name : String
  data : ColumnData
deriving Repr, DecidableEq

/-- A dataframe, column-major.  pandas frames are rectangular: all columns
of one table have the same length. -/
abbrev Table := List Column

/-- Ascending insertion used to sort rational samples. -/
def insertAsc (q : ℚ) : List ℚ → List ℚ
  | [] => [q]
  | x :: xs => if q ≤ x then q :: x :: xs else x :: insertAsc q xs

/-- Insertion sort, ascending. -/
def sortAsc (l : List ℚ) : List ℚ :=
  l.foldr insertAsc []

/-- numpy median of the present values: the mean of the two middle elements
of the sorted list (which coincide for odd length). -/
def medianOf (l : List ℚ) : ℚ :=
  let s := sortAsc l
  let n := s.length
  if n = 0 then 0
  else (((s.get? ((n - 1) / 2)).getD 0) + ((s.get? (n / 2)).getD 0)) / 2

/-- SimpleImputer most_frequent statistic: the smallest value among those of
maximal multiplicity (the scipy mode convention). -/
def mostFrequentOf (l : List ℚ) : ℚ :=
  match sortAsc l with
  | [] => 0
  | x :: xs =>
    (x :: xs).foldl (fun acc v => if l.count v > l.count acc then v else acc) x

/-- The imputation statistic SimpleImputer computes for one numeric column
under the strategy dispatch of handle_missing_values (any strategy other
than mean, median and most_frequent falls into the constant branch with
fill value 0).  none models an all-missing column under a statistic
strategy: SimpleImputer then drops the column at transform, the dataframe
re-assignment raises, and handle_missing_values fails rather than
returning. -/
def numericStatistic (strategy : String) (present : List ℚ) : Option ℚ :=
  if strategy = "mean" then
    if present.isEmpty then none else some (present.sum / (present.length : ℚ))
  else if strategy = "median" then
    if present.isEmpty then none else some (medianOf present)
  else if strategy = "most_frequent" then
    if present.isEmpty then none else some (mostFrequentOf present)
  else some 0

/-- Per-column imputation: numeric gaps get the strategy statistic,
categorical gaps always get the constant sentinel "unknown". -/
def imputeColumn (strategy : String) : Column → Option Column
  | ⟨nm, .numeric cells⟩ =>
    (numericStatistic strategy (cells.filterMap id)).map
      (fun s => ⟨nm, .numeric (cells.map (fun c => some (c.getD s)))⟩)
  | ⟨nm, .categorical cells⟩ =>
    some ⟨nm, .categorical (cells.map (fun c => some (c.getD "unknown")))⟩

/-- Sequence per-column imputation over the whole frame; any column whose
imputer raises makes the whole call raise. -/
def mapOption (f : α → Option β) : List α → Option (List β)
  | [] => some []
  | x :: xs =>
    match f x, mapOption f xs with
    | some y, some ys => some (y :: ys)
    | _, _ => none

/-- Embedding of DataPreprocessor.handle_missing_values. -/
def handle_missing_values (df : Table) (strategy : String) : Option Table :=
  mapOption (imputeColumn strategy) df

/-! ## preprocessing.py : validate_data_quality -/

/-- Number of missing cells of one column. -/
def missingCount : Column → Nat
  | ⟨_, .numeric cells⟩ => cells.countP (fun c => c.isNone)
  | ⟨_, .categorical cells⟩ => cells.countP (fun c => c.isNone)

/-- Length of one column. -/
def colLength : Column → Nat
  | ⟨_, .numeric cells⟩ => cells.length
  | ⟨_, .categorical cells⟩ => cells.length

/-- len(df): the row count of the frame; rectangular frames are embedded by
the length of the first column (0 for a frame with no columns). -/
def numRows : Table → Nat
  | [] => 0
  | c :: _ => colLength c

/-- The cell of one column at one row index, with the column type attached. -/
def cellAt (c : Column) (i : Nat) : Option (ℚ ⊕ String) :=
  match c.data with
  | .numeric cells => ((cells.get? i).getD none).map Sum.inl
  | .categorical cells => ((cells.get? i).getD none).map Sum.inr

/-- One row of the frame. -/
def rowAt (df : Table) (i : Nat) : List (Option (ℚ ⊕ String)) :=
  df.map (fun c => cellAt c i)

/-- df.duplicated().sum(): the number of rows equal to some earlier row
(pandas treats NaN cells as equal when detecting duplicate rows). -/
def duplicateCount (df : Table) : Nat :=
  (List.range (numRows df)).countP
    (fun i => (List.range i).any (fun j => decide (rowAt df j = rowAt df i)))

/-- The quality report of validate_data_quality (the data_types field, a map
of dtype names, has no counterpart in this embedding and is not modeled). -/
structure QualityReport where
  total_rows : Nat
  total_columns : Nat
  missing_values : List (String × Nat)
  duplicates : Nat
  quality_score : ℚ
deriving Repr, DecidableEq

/-- Embedding of DataPreprocessor.validate_data_quality.  quality_score
starts at 0, loses (missing / rows) * 10 for each column that has at least
one missing value, and is finally reported as max(0, min(100, 100 +
score)). -/
def validate_data_quality (df : Table) : QualityReport :=
  let n := numRows df
  let score : ℚ := df.foldl
    (fun acc col =>
      let mc := missingCount col
      if mc > 0 then acc - ((mc : ℚ) / (n : ℚ)) * 10 else acc) 0
  { total_rows := n
    total_columns := df.length
    missing_values := df.map (fun c => (c.name, missingCount c))
    duplicates := duplicateCount df
    quality_score := max 0 (min 100 (100 + score)) }

/-! ## preprocessing.py : select_features -/

/-- The entries of the feature-selection config dict that select_features
reads: the method, the optional target column and k (defaulted to 10). -/
structure FeatureSelectionConfig where
  method : Option String
  target_column : Option String
  k : Nat
deriving Repr

/-- Embedding of DataPreprocessor.select_features.  The SelectKBest fit
(f_classif or mutual_info_classif scoring against the target column) is
abstracted as the rank oracle returning the selected column names;
Except.error models an exception raised by the fit, for instance k larger
than the number of feature columns.  A missing config or method entry, a
falsy or absent target column, and an unrecognized method all return the
frame unchanged without fitting; the two fitting branches store the
selector on the preprocessor and also return the frame unchanged. -/
def select_features (df : Table) (config : Option FeatureSelectionConfig)
    (rank : Table → String → Nat → Except String (List String)) :
    Except String Table :=
  match config with
  | none => .ok df
  | some cfg =>
    match cfg.method with
    | none => .ok df
    | some method =>
      match cfg.target_column with
      | none => .ok df
      | some target =>
        if target = "" then .ok df
        else if ¬ df.any (fun c => c.name == target) then .ok df
        else if method = "k_best" ∨ method = "mutual_info" then
          match rank df target cfg.k with
          | .error e => .error e
          | .ok _selected => .ok df
        else .ok df

/-! ## Helper lemmas -/

/-- Dividing every element of a list by a fixed rational divides the sum. -/
theorem sum_map_div (l : List ℚ) (d : ℚ) :
    (l.map (fun x => x / d)).sum = l.sum / d := by
  induction l with
  | nil => simp
  | cons a t ih => simp [ih, add_div]

/-- Zipping a list with a pointwise image of itself is mapping the pairing. -/
theorem zip_map_self (names : List String) (g : String → ℚ) :
    names.zip (names.map g) = names.map (fun nm => (nm, g nm)) := by
  induction names with
  | nil => rfl
  | cons a l ih => simp [ih]

/-! ## C5 -/

/-- C5: the tier label of a classification prediction is high exactly when
the conversion probability is above 0.7, medium exactly when it is above 0.4
and at most 0.7, and low exactly when it is at most 0.4; both boundary
comparisons are strict, so 0.7 labels medium, 0.70001 labels high, 0.4
labels low and 0.40001 labels medium. -/
theorem C5_tier_boundaries (p : ℚ) :
    (predictionClass p = "high" ↔ 7/10 < p) ∧
    (predictionClass p = "medium" ↔ 4/10 < p ∧ p ≤ 7/10) ∧
    (predictionClass p = "low" ↔ p ≤ 4/10) ∧
    predictionClass (7/10) = "medium" ∧
    predictionClass (70001/100000) = "high" ∧
    predictionClass (4/10) = "low" ∧
    predictionClass (40001/100000) = "medium" := by
  have hhm : ("high" : String) ≠ "medium" := by decide
  have hhl : ("high" : String) ≠ "low" := by decide
  have hmh : ("medium" : String) ≠ "high" := by decide
  have hml : ("medium" : String) ≠ "low" := by decide
  have hlh : ("low" : String) ≠ "high" := by decide
  have hlm : ("low" : String) ≠ "medium" := by decide
  refine ⟨?_, ?_, ?_, ?_, ?_, ?_, ?_⟩
  · unfold predictionClass
    split_ifs with h1 h2
    · simp only [gt_iff_lt] at h1
      simp [h1]
    · simp only [gt_iff_lt] at h1
      simp [hmh, h1]
    · simp only [gt_iff_lt] at h1
      simp [hlh, h1]
  · unfold predictionClass
    split_ifs with h1 h2
    · simp only [gt_iff_lt] at h1
      simp only [hhm, false_iff]
      rintro ⟨-, h⟩
      linarith
    · simp only [gt_iff_lt, not_lt] at h1 h2
      simp [h2, h1]
    · simp only [gt_iff_lt, not_lt] at h1 h2
      simp only [hlm, false_iff]
      rintro ⟨h, -⟩
      linarith
  · unfold predictionClass
    split_ifs with h1 h2
    · simp only [gt_iff_lt] at h1
      simp only [hhl, false_iff, not_le]
      linarith
    · simp only [gt_iff_lt] at h2
      simp only [hml, false_iff, not_le]
      linarith
    · simp only [gt_iff_lt, not_lt] at h2
      simp [h2]
  · norm_num [predictionClass]
  · norm_num [predictionClass]
  · norm_num [predictionClass]
  · norm_num [predictionClass]

/-! ## C10 -/

/-- C10: a non-empty email without an "@" character yields the empty
extracted domain, which is not in the freemail list, so it scores 15 (the
business-domain score); a missing email or the empty string scores 0. -/
theorem C10_email_without_at (e : String) (h1 : e ≠ "")
    (h2 : '@' ∉ e.data) :
    calculate_email_domain_score (some e) = 15 ∧
    calculate_email_domain_score none = 0 ∧
    calculate_email_domain_score (some "") = 0 := by
  refine ⟨?_, rfl, by decide⟩
  simp [calculate_email_domain_score, h1, h2, business_domains]

/-- Witness for C10 at the concrete malformed address "plainaddress". -/
theorem C10_email_without_at_witness :
    calculate_email_domain_score (some "plainaddress") = 15 ∧
    calculate_email_domain_score none = 0 ∧
    calculate_email_domain_score (some "") = 0 :=
  C10_email_without_at "plainaddress" (by decide) (by decide)

/-! ## C4 -/

/-- C4: get_feature_importance dispatches in this order: native importance
scores (feature_importances_) when exposed are returned normalized by their
sum; otherwise the absolute magnitudes of the weight coefficients (coefs_)
are returned normalized by their sum; otherwise every feature gets the
uniform weight 1 / n_features (the uniform vector renormalizes to itself). -/
theorem C4_importance_dispatch (imp cs : List ℚ) (names : List String) :
    get_feature_importance ⟨some imp, none⟩ names =
      names.zip (imp.map (fun x => x / imp.sum)) ∧
    get_feature_importance ⟨some imp, some cs⟩ names =
      names.zip (imp.map (fun x => x / imp.sum)) ∧
    get_feature_importance ⟨none, some cs⟩ names =
      names.zip ((cs.map (fun c => |c|)).map
        (fun x => x / (cs.map (fun c => |c|)).sum)) ∧
    get_feature_importance ⟨none, none⟩ names =
      names.map (fun nm => (nm, 1 / (names.length : ℚ))) := by
  refine ⟨rfl, rfl, rfl, ?_⟩
  cases names with
  | nil => rfl
  | cons a l =>
    have hn : ((a :: l).length : ℚ) ≠ 0 := by
      have h0 : (a :: l).length ≠ 0 := l.length.succ_ne_zero
      exact_mod_cast h0
    have hsum : ((a :: l).map (fun _ => 1 / ((a :: l).length : ℚ))).sum = 1 := by
      rw [List.map_const', List.sum_replicate, nsmul_eq_mul]
      field_simp
    unfold get_feature_importance rawImportance
    simp only [hsum, div_one, List.map_map, Function.comp]
    exact zip_map_self (a :: l) (fun _ => 1 / ((a :: l).length : ℚ))

/-! ## C3 -/

/-- C3 counterexample: a model whose native importance scores are all zero
(reachable, for instance a tree ensemble that never splits) produces a
stored importance map whose values do not sum to 1 within 1e-6: numpy
divides by the zero sum and yields NaN entries, and in this rational
embedding the entries are 0, so under both semantics the sum is not within
1e-6 of 1. -/
theorem C3_counterexample :
    ¬ |((get_feature_importance ⟨some [0, 0], none⟩ ["a", "b"]).map Prod.snd).sum - 1|
        ≤ 1/1000000 := by
  norm_num [get_feature_importance, rawImportance]

/-- C3 (amended): whenever the raw importance vector selected for the model
has one entry per feature name and a nonzero sum - which holds for the
uniform fallback and for any model with at least one nonzero nonnegative
score - the stored feature-importance values sum to exactly 1, hence to 1
within 1e-6.  (The names are assumed distinct so that the association list
coincides with the Python dict.) -/
theorem C3_importance_sums_to_one (model : MLModel) (names : List String)
    (_hnodup : names.Nodup)
    (hlen : (rawImportance model names).length = names.length)
    (hsum : (rawImportance model names).sum ≠ 0) :
    ((get_feature_importance model names).map Prod.snd).sum = 1 ∧
    |((get_feature_importance model names).map Prod.snd).sum - 1| ≤ 1/1000000 := by
  have h1 : ((get_feature_importance model names).map Prod.snd).sum = 1 := by
    unfold get_feature_importance
    rw [List.map_snd_zip]
    · rw [sum_map_div, div_self hsum]
    · simp [hlen]
  exact ⟨h1, by rw [h1]; norm_num⟩

/-- Witness for C3 at a model with native scores one half and one half. -/
theorem C3_importance_sums_to_one_witness :
    ((get_feature_importance ⟨some [1/2, 1/2], none⟩ ["a", "b"]).map Prod.snd).sum = 1 :=
  (C3_importance_sums_to_one ⟨some [1/2, 1/2], none⟩ ["a", "b"] (by decide)
    (by simp [rawImportance]) (by norm_num [rawImportance])).1

/-! ## C9 -/

/-- C9: select_features never changes the frame: on every non-raising path
it returns exactly its input - the univariate ranking may be computed (and
may raise), but its outcome is never applied as a filter to the returned
frame. -/
theorem C9_select_features_identity (df t : Table)
    (config : Option FeatureSelectionConfig)
    (rank : Table → String → Nat → Except String (List String))
    (h : select_features df config rank = Except.ok t) : t = df := by
  unfold select_features at h
  repeat' split at h
  all_goals first
    | exact Except.noConfusion h
    | (injection h with h2
       exact h2.symm)

/-- Witness for C9: a frame with a target column and a k_best config whose
ranking succeeds comes back unchanged. -/
theorem C9_select_features_identity_witness :
    ([⟨"f1", ColumnData.numeric [some 1]⟩, ⟨"y", ColumnData.numeric [some 0]⟩] : Table) =
      [⟨"f1", ColumnData.numeric [some 1]⟩, ⟨"y", ColumnData.numeric [some 0]⟩] :=
  C9_select_features_identity
    [⟨"f1", ColumnData.numeric [some 1]⟩, ⟨"y", ColumnData.numeric [some 0]⟩]
    [⟨"f1", ColumnData.numeric [some 1]⟩, ⟨"y", ColumnData.numeric [some 0]⟩]
    (some ⟨some "k_best", some "y", 10⟩)
    (fun _ _ _ => Except.ok ["f1"]) rfl

/-! ## C8 -/

/-- The foldl accumulating the quality penalties equals the start value
minus the sum of 10 times each column's missing fraction (a column with no
missing cells contributes a zero term, so the guard in the code is
immaterial to the total). -/
theorem quality_foldl (cols : List Column) (n : ℚ) (a : ℚ) :
    cols.foldl
      (fun acc col =>
        let mc := missingCount col
        if mc > 0 then acc - ((mc : ℚ) / n) * 10 else acc) a =
    a - (cols.map (fun c => 10 * ((missingCount c : ℚ) / n))).sum := by
  induction cols generalizing a with
  | nil => simp
  | cons c t ih =>
    simp only [List.foldl_cons, List.map_cons, List.sum_cons, ih]
    by_cases h : missingCount c > 0
    · rw [if_pos h]
      ring
    · rw [if_neg h]
      have h0 : missingCount c = 0 := by omega
      rw [h0]
      push_cast
      ring

/-- C8: for a non-empty frame the quality score equals 100 minus, for each
column, 10 times that column's fraction of missing values, clamped into
[0, 100]. -/
theorem C8_quality_score (df : Table) (_h : 0 < numRows df) :
    (validate_data_quality df).quality_score =
      max 0 (min 100
        (100 - (df.map (fun c => 10 * ((missingCount c : ℚ) / (numRows df : ℚ)))).sum)) := by
  unfold validate_data_quality
  simp only
  rw [quality_foldl]
  simp only [zero_sub, sub_eq_add_neg, zero_add]

/-- Witness for C8: a two-column frame with one of two cells missing in one
column scores 95. -/
theorem C8_quality_score_witness :
    (validate_data_quality
        [⟨"x", ColumnData.numeric [some 1, none]⟩,
         ⟨"c", ColumnData.categorical [some "a", some "b"]⟩]).quality_score =
      max 0 (min 100
        (100 - (([⟨"x", ColumnData.numeric [some 1, none]⟩,
             ⟨"c", ColumnData.categorical [some "a", some "b"]⟩] : Table).map
            (fun c => 10 * ((missingCount c : ℚ) /
              (numRows [⟨"x", ColumnData.numeric [some 1, none]⟩,
                ⟨"c", ColumnData.categorical [some "a", some "b"]⟩] : ℚ)))).sum)) :=
  C8_quality_score
    [⟨"x", ColumnData.numeric [some 1, none]⟩,
     ⟨"c", ColumnData.categorical [some "a", some "b"]⟩] (by decide)

/-! ## C7 -/

/-- A column with no missing cell. -/
def colComplete (c : Column) : Bool :=
  match c.data with
  | .numeric cells => cells.all (fun x => x.isSome)
  | .categorical cells => cells.all (fun x => x.isSome)

/-- Whatever statistic the imputer picked, the imputed column is complete. -/
theorem imputeColumn_complete (strategy : String) (c c2 : Column)
    (h : imputeColumn strategy c = some c2) : colComplete c2 = true := by
  obtain ⟨nm, dat⟩ := c
  cases dat with
  | numeric cells =>
    simp only [imputeColumn] at h
    cases hs : numericStatistic strategy (cells.filterMap id) with
    | none =>
      rw [hs] at h
      simp at h
    | some s =>
      rw [hs] at h
      simp only [Option.map_some', Option.some.injEq] at h
      subst h
      simp [colComplete, List.all_eq_true]
  | categorical cells =>
    simp only [imputeColumn, Option.some.injEq] at h
    subst h
    simp [colComplete, List.all_eq_true]

/-- C7: whenever handle_missing_values returns a frame, no missing value
remains in any numeric or categorical column (numeric gaps were filled with
the strategy statistic - 0 for the constant branch - and categorical gaps
with the sentinel "unknown"). -/
theorem C7_no_missing_after (df t : Table) (strategy : String)
    (h : handle_missing_values df strategy = some t) :
    t.all colComplete = true := by
  induction df generalizing t with
  | nil =>
    unfold handle_missing_values mapOption at h
    simp only [Option.some.injEq] at h
    subst h
    rfl
  | cons c rest ih =>
    unfold handle_missing_values mapOption at h
    cases hc : imputeColumn strategy c with
    | none =>
      rw [hc] at h
      simp at h
    | some y =>
      rw [hc] at h
      cases hr : mapOption (imputeColumn strategy) rest with
      | none =>
        rw [hr] at h
        simp at h
      | some ys =>
        rw [hr] at h
        simp only [Option.some.injEq] at h
        subst h
        have hy := imputeColumn_complete strategy c y hc
        have hys : ys.all colComplete = true := by
          apply ih
          unfold handle_missing_values
          exact hr
        simp [List.all_cons, hy, hys]

/-- Witness for C7: mean imputation on a frame with numeric and categorical
gaps yields a frame with no missing cell. -/
theorem C7_no_missing_after_witness :
    ([⟨"x", ColumnData.numeric [some 1, some 2, some 3]⟩,
      ⟨"c", ColumnData.categorical [some "unknown", some "a", some "unknown"]⟩] : Table).all
        colComplete = true :=
  C7_no_missing_after
    [⟨"x", ColumnData.numeric [some 1, none, some 3]⟩,
     ⟨"c", ColumnData.categorical [none, some "a", none]⟩]
    [⟨"x", ColumnData.numeric [some 1, some 2, some 3]⟩,
     ⟨"c", ColumnData.categorical [some "unknown", some "a", some "unknown"]⟩]
    "mean"
    (by norm_num [handle_missing_values, mapOption, imputeColumn, numericStatistic,
      List.filterMap, Option.getD])

/-! ## Artifact selection lemmas (shared by C2 and C6) -/

/-- Inserting into the date-sorted list is a permutation of consing. -/
theorem insertByDateDesc_perm (m : ModelRecord) (l : List ModelRecord) :
    List.Perm (insertByDateDesc m l) (m :: l) := by
  induction l with
  | nil => exact List.Perm.refl _
  | cons x xs ih =>
    unfold insertByDateDesc
    by_cases h : m.training_date ≥ x.training_date
    · rw [if_pos h]
    · rw [if_neg h]
      exact (ih.cons x).trans (List.Perm.swap m x xs)

/-- The sorted model list is a permutation of the store. -/
theorem get_model_list_perm (store : List ModelRecord) :
    List.Perm (get_model_list store) store := by
  induction store with
  | nil => exact List.Perm.refl _
  | cons m rest ih =>
    unfold get_model_list at ih ⊢
    simp only [List.foldr_cons]
    exact (insertByDateDesc_perm m _).trans (ih.cons m)

/-- Membership in the sorted model list is membership in the store. -/
theorem mem_get_model_list (store : List ModelRecord) (m : ModelRecord) :
    m ∈ get_model_list store ↔ m ∈ store :=
  (get_model_list_perm store).mem_iff

/-- The accumulator fold behind Python max: the result is the start value or
a list element, and its date dominates the start value and every element. -/
theorem foldlMaxDate_spec (xs : List ModelRecord) :
    ∀ x : ModelRecord,
      (xs.foldl (fun acc m => if m.training_date > acc.training_date then m else acc) x
          = x ∨
        xs.foldl (fun acc m => if m.training_date > acc.training_date then m else acc) x
          ∈ xs) ∧
      x.training_date ≤
        (xs.foldl (fun acc m => if m.training_date > acc.training_date then m else acc)
          x).training_date ∧
      ∀ y ∈ xs,
        y.training_date ≤
          (xs.foldl (fun acc m => if m.training_date > acc.training_date then m else acc)
            x).training_date := by
  induction xs with
  | nil => intro x; exact ⟨Or.inl rfl, le_refl _, by simp⟩
  | cons z zs ih =>
    intro x
    simp only [List.foldl_cons]
    by_cases hz : z.training_date > x.training_date
    · rw [if_pos hz]
      obtain ⟨hmem, hacc, hall⟩ := ih z
      refine ⟨?_, le_trans (le_of_lt hz) hacc, ?_⟩
      · rcases hmem with h | h
        · rw [h]
          exact Or.inr (List.mem_cons_self z zs)
        · exact Or.inr (List.mem_cons_of_mem z h)
      · intro y hy
        rcases List.mem_cons.mp hy with rfl | hy2
        · exact hacc
        · exact hall y hy2
    · rw [if_neg hz]
      obtain ⟨hmem, hacc, hall⟩ := ih x
      refine ⟨?_, hacc, ?_⟩
      · rcases hmem with h | h
        · exact Or.inl h
        · exact Or.inr (List.mem_cons_of_mem z h)
      · intro y hy
        rcases List.mem_cons.mp hy with rfl | hy2
        · exact le_trans (le_of_not_lt hz) hacc
        · exact hall y hy2

/-- maxByDate on a nonempty list yields an element whose training_date
dominates the whole list. -/
theorem maxByDate_spec (l : List ModelRecord) (hl : l ≠ []) :
    ∃ m, maxByDate l = some m ∧ m ∈ l ∧
      ∀ y ∈ l, y.training_date ≤ m.training_date := by
  cases l with
  | nil => exact absurd rfl hl
  | cons x xs =>
    obtain ⟨hmem, hx, hall⟩ := foldlMaxDate_spec xs x
    refine ⟨_, rfl, ?_, ?_⟩
    · rcases hmem with h | h
      · rw [h]; exact List.mem_cons_self x xs
      · exact List.mem_cons_of_mem x h
    · intro y hy
      rcases List.mem_cons.mp hy with rfl | hy2
      · exact hx
      · exact hall y hy2

/-- The type filter the selection applies to the sorted list. -/
def typeModels (store : List ModelRecord) (mt : String) : List ModelRecord :=
  (get_model_list store).filter (fun m => m.model_type == mt)

/-- Membership in the filtered list is membership in the store with the
matching model_type. -/
theorem mem_typeModels (store : List ModelRecord) (mt : String) (m : ModelRecord) :
    m ∈ typeModels store mt ↔ m ∈ store ∧ m.model_type = mt := by
  unfold typeModels
  rw [List.mem_filter, mem_get_model_list]
  simp

/-- The name-lookup step of _get_best_model_path: the first exact name match
in the sorted type-filtered list, or none when no truthy name was given. -/
def namedLookup (tm : List ModelRecord) (model_name : Option String) :
    Option ModelRecord :=
  match model_name with
  | some name =>
    if name = "" then none
    else tm.find? (fun m : ModelRecord => m.model_name == name)
  | none => none

/-- get_best_model_path stated through typeModels and namedLookup. -/
theorem get_best_model_path_eq (store : List ModelRecord) (mt : String)
    (model_name : Option String) :
    get_best_model_path store mt model_name =
      (if (typeModels store mt).isEmpty then none
       else
        match namedLookup (typeModels store mt) model_name with
        | some m => some m.model_path
        | none => (maxByDate (typeModels store mt)).map (fun m : ModelRecord => m.model_path)) := rfl

/-- Resolution yields none exactly when the owner has no artifact of the
requested model_type, whatever model_name was supplied. -/
theorem get_best_model_path_none_iff (store : List ModelRecord) (mt : String)
    (model_name : Option String) :
    get_best_model_path store mt model_name = none ↔
      ∀ m ∈ store, m.model_type ≠ mt := by
  rw [get_best_model_path_eq]
  by_cases he : (typeModels store mt).isEmpty
  · rw [if_pos he]
    have h0 : typeModels store mt = [] := List.isEmpty_iff.mp he
    constructor
    · intro _ m hm hmt
      have : m ∈ typeModels store mt := (mem_typeModels store mt m).mpr ⟨hm, hmt⟩
      rw [h0] at this
      exact absurd this (List.not_mem_nil m)
    · intro _
      rfl
  · rw [if_neg he]
    have h0 : typeModels store mt ≠ [] := fun h => he (by rw [h]; rfl)
    obtain ⟨mmax, hmax, hmaxmem, -⟩ := maxByDate_spec (typeModels store mt) h0
    constructor
    · intro hnone
      exfalso
      rcases hfind : namedLookup (typeModels store mt) model_name with _ | m2
      · rw [hfind] at hnone
        rw [hmax] at hnone
        simp at hnone
      · rw [hfind] at hnone
        simp at hnone
    · intro hall
      exfalso
      obtain ⟨hmem, hmt⟩ := (mem_typeModels store mt mmax).mp hmaxmem
      exact hall mmax hmem hmt

/-! ## C2 -/

/-- C2 counterexample: a store holding exactly one lead_conversion artifact
named m1 resolves a request for the unmatched name m2 to that artifact
instead of failing with a NotFound result. -/
theorem C2_counterexample :
    get_best_model_path [⟨"lead_conversion", "m1", 5, "p1"⟩]
        "lead_conversion" (some "m2") = some "p1" ∧
    ¬ get_best_model_path [⟨"lead_conversion", "m1", 5, "p1"⟩]
        "lead_conversion" (some "m2") = none := by
  have h1 : get_best_model_path [⟨"lead_conversion", "m1", 5, "p1"⟩]
      "lead_conversion" (some "m2") = some "p1" := rfl
  exact ⟨h1, by rw [h1]; simp⟩

/-- C2 (amended): resolution returns none exactly when the owner has no
artifact of the task type; when a non-empty model_name is supplied and some
artifact of the (owner, task_type) carries it, a matching artifact is
returned; when the supplied name matches no artifact, resolution falls back
to the same artifact the no-name call returns instead of failing; and the
no-name call returns an artifact with the latest training_date for the
(owner, task_type). -/
theorem C2_artifact_resolution (store : List ModelRecord) (mt name : String)
    (hname : name ≠ "") :
    (get_best_model_path store mt (some name) = none ↔
      ∀ m ∈ store, m.model_type ≠ mt) ∧
    ((∃ m ∈ store, m.model_type = mt ∧ m.model_name = name) →
      ∃ m ∈ store, m.model_type = mt ∧ m.model_name = name ∧
        get_best_model_path store mt (some name) = some m.model_path) ∧
    ((∀ m ∈ store, m.model_type = mt → m.model_name ≠ name) →
      get_best_model_path store mt (some name) = get_best_model_path store mt none) ∧
    ((∃ m ∈ store, m.model_type = mt) →
      ∃ m ∈ store, m.model_type = mt ∧
        get_best_model_path store mt none = some m.model_path ∧
        ∀ y ∈ store, y.model_type = mt → y.training_date ≤ m.training_date) := by
  refine ⟨get_best_model_path_none_iff store mt (some name), ?_, ?_, ?_⟩
  · rintro ⟨m0, hm0, hty, hnm⟩
    have hmem : m0 ∈ typeModels store mt := (mem_typeModels store mt m0).mpr ⟨hm0, hty⟩
    have hB : ¬ ((typeModels store mt).isEmpty = true) := by
      simp only [List.isEmpty_iff]
      exact List.ne_nil_of_mem hmem
    cases hf : (typeModels store mt).find? (fun m : ModelRecord => m.model_name == name) with
    | none =>
      exfalso
      have := List.find?_eq_none.mp hf m0 hmem
      simp [hnm] at this
    | some m1 =>
      have hm1mem : m1 ∈ typeModels store mt := List.mem_of_find?_eq_some hf
      have hp2 : m1.model_name = name := by
        have hp := List.find?_some hf
        simpa using hp
      obtain ⟨hm1s, hm1t⟩ := (mem_typeModels store mt m1).mp hm1mem
      refine ⟨m1, hm1s, hm1t, hp2, ?_⟩
      rw [get_best_model_path_eq, if_neg hB]
      simp only [namedLookup]
      rw [if_neg hname, hf]
  · intro hall
    have hf : (typeModels store mt).find? (fun m : ModelRecord => m.model_name == name)
        = none := by
      apply List.find?_eq_none.mpr
      intro m hm
      obtain ⟨hms, hmt⟩ := (mem_typeModels store mt m).mp hm
      simpa using hall m hms hmt
    rw [get_best_model_path_eq, get_best_model_path_eq]
    simp only [namedLookup]
    rw [if_neg hname, hf]
  · rintro ⟨m0, hm0, hty⟩
    have hmem : m0 ∈ typeModels store mt := (mem_typeModels store mt m0).mpr ⟨hm0, hty⟩
    have hne : typeModels store mt ≠ [] := List.ne_nil_of_mem hmem
    have hB : ¬ ((typeModels store mt).isEmpty = true) := by
      simp only [List.isEmpty_iff]
      exact hne
    obtain ⟨mmax, hmax, hmaxmem, hdom⟩ := maxByDate_spec (typeModels store mt) hne
    obtain ⟨hs, ht⟩ := (mem_typeModels store mt mmax).mp hmaxmem
    refine ⟨mmax, hs, ht, ?_, ?_⟩
    · rw [get_best_model_path_eq, if_neg hB]
      simp only [namedLookup]
      rw [hmax]
      rfl
    · intro y hy hyt
      exact hdom y ((mem_typeModels store mt y).mpr ⟨hy, hyt⟩)

/-- Witness for C2: in a store with artifacts m1 and m2, requesting m1
resolves to an artifact named m1. -/
theorem C2_artifact_resolution_witness :
    ∃ m ∈ ([⟨"lead_conversion", "m1", 5, "p1"⟩,
        ⟨"lead_conversion", "m2", 9, "p2"⟩] : List ModelRecord),
      m.model_type = "lead_conversion" ∧ m.model_name = "m1" ∧
      get_best_model_path
        [⟨"lead_conversion", "m1", 5, "p1"⟩, ⟨"lead_conversion", "m2", 9, "p2"⟩]
        "lead_conversion" (some "m1") = some m.model_path :=
  (C2_artifact_resolution
      [⟨"lead_conversion", "m1", 5, "p1"⟩, ⟨"lead_conversion", "m2", 9, "p2"⟩]
      "lead_conversion" "m1" (by decide)).2.1
    ⟨⟨"lead_conversion", "m1", 5, "p1"⟩, by simp, rfl, rfl⟩

/-! ## C6 -/

/-- C6: each single-prediction operation, against a store holding no
artifact of its own task type (whatever artifacts of other task types the
owner may hold), returns the structured NotFound-shaped failure record
(success false with the no-model message); the embedded operations are
total functions of the store and oracles, so no exception escapes the
service boundary. -/
theorem C6_predict_no_artifacts (store : List ModelRecord)
    (name1 name2 : Option String)
    (inferL : String → Except String (List ℚ)) (inferC : String → Except String ℚ) :
    ((∀ m ∈ store, m.model_type ≠ "lead_conversion") →
      predict_lead_conversion store name1 inferL =
        PredResult.err "No trained model available for lead conversion") ∧
    ((∀ m ∈ store, m.model_type ≠ "customer_lifetime_value") →
      predict_customer_lifetime_value store name2 inferC =
        PredResult.err "No trained model available for lifetime value prediction") := by
  constructor
  · intro h1
    have e1 := (get_best_model_path_none_iff store "lead_conversion" name1).mpr h1
    unfold predict_lead_conversion
    rw [e1]
  · intro h2
    have e2 := (get_best_model_path_none_iff store "customer_lifetime_value" name2).mpr h2
    unfold predict_customer_lifetime_value
    rw [e2]

/-- Witness for C6: lead prediction against a store holding only a
lifetime-value artifact fails NotFound, and lifetime-value prediction
against a store holding only a lead artifact fails NotFound. -/
theorem C6_predict_no_artifacts_witness :
    predict_lead_conversion [⟨"customer_lifetime_value", "m1", 5, "p1"⟩] none
        (fun _ => Except.error "io") =
      PredResult.err "No trained model available for lead conversion" ∧
    predict_customer_lifetime_value [⟨"lead_conversion", "m2", 7, "p2"⟩] none
        (fun _ => Except.error "io") =
      PredResult.err "No trained model available for lifetime value prediction" :=
  ⟨(C6_predict_no_artifacts [⟨"customer_lifetime_value", "m1", 5, "p1"⟩] none none
      (fun _ => Except.error "io") (fun _ => Except.error "io")).1 (by decide),
   (C6_predict_no_artifacts [⟨"lead_conversion", "m2", 7, "p2"⟩] none none
      (fun _ => Except.error "io") (fun _ => Except.error "io")).2 (by decide)⟩

/-! ## C1 -/

/-- C1 counterexample: with every library call succeeding, train_model on an
unregistered task type raises ValueError (Except.error in this embedding)
instead of returning any result record - the exception propagates past the
train boundary, where the claim requires a success-false record. -/
theorem C1_counterexample :
    train_model
      ⟨Except.ok (8, 2), Except.ok (⟨some [1], none⟩, []),
        Except.ok [("accuracy", 1)], Except.ok "models/u/m.joblib",
        "2026-01-01T00:00:00"⟩
      "bogus_task" "random_forest" ["f1"] "m" "u" =
      Except.error "Unknown model type: bogus_task" := rfl

/-- C1 (amended): train_model raises ValueError on an unknown task_type or
algorithm, and any exception of an internal step (split, fit, metric
computation, persistence) propagates past the train boundary uncaught - it
contains no try/except and no return path carrying success false; only when
validation passes and every step succeeds does it return the success record
with the storage path, the metadata document and the metrics. -/
theorem C1_train_boundary (env : TrainEnv) (mt algo mn uid : String)
    (names : List String) (algos : List (String × List String)) (ps : List String)
    (hmt : model_configs.lookup mt = some algos)
    (halgo : algos.lookup algo = some ps) :
    (∀ (nTrain nTest : Nat) (model : MLModel) (grid_best : List (String × String))
        (ms : List (String × ℚ)) (path : String),
      env.split = Except.ok (nTrain, nTest) →
      env.fit = Except.ok (model, grid_best) →
      env.metrics = Except.ok ms →
      env.save = Except.ok path →
      train_model env mt algo names mn uid =
        Except.ok
          { model_path := path
            metadata :=
              { model_type := mt
                algorithm := algo
                model_name := mn
                user_id := uid
                training_date := env.now
                training_samples := nTrain
                test_samples := nTest
                features := names
                best_params := if ps.isEmpty then [] else grid_best
                feature_importance := get_feature_importance model names
                metrics := ms }
            metrics := ms }) ∧
    (∀ e : String, env.split = Except.error e →
      train_model env mt algo names mn uid = Except.error e) ∧
    (∀ (nTrain nTest : Nat) (e : String),
      env.split = Except.ok (nTrain, nTest) →
      env.fit = Except.error e →
      train_model env mt algo names mn uid = Except.error e) ∧
    (∀ (nTrain nTest : Nat) (model : MLModel) (grid_best : List (String × String))
        (e : String),
      env.split = Except.ok (nTrain, nTest) →
      env.fit = Except.ok (model, grid_best) →
      env.metrics = Except.error e →
      train_model env mt algo names mn uid = Except.error e) ∧
    (∀ (nTrain nTest : Nat) (model : MLModel) (grid_best : List (String × String))
        (ms : List (String × ℚ)) (e : String),
      env.split = Except.ok (nTrain, nTest) →
      env.fit = Except.ok (model, grid_best) →
      env.metrics = Except.ok ms →
      env.save = Except.error e →
      train_model env mt algo names mn uid = Except.error e) ∧
    (∀ mt2 : String, model_configs.lookup mt2 = none →
      train_model env mt2 algo names mn uid =
        Except.error ("Unknown model type: " ++ mt2)) ∧
    (∀ algo2 : String, algos.lookup algo2 = none →
      train_model env mt algo2 names mn uid =
        Except.error ("Unknown algorithm " ++ algo2 ++ " for model type " ++ mt)) := by
  refine ⟨?_, ?_, ?_, ?_, ?_, ?_, ?_⟩
  · intro nTrain nTest model grid_best ms path hsplit hfit hmetrics hsave
    unfold train_model
    simp only [hmt, halgo, hsplit, hfit, hmetrics, hsave, bind, Except.bind]
  · intro e hsplit
    unfold train_model
    simp only [hmt, halgo, hsplit, bind, Except.bind]
  · intro nTrain nTest e hsplit hfit
    unfold train_model
    simp only [hmt, halgo, hsplit, hfit, bind, Except.bind]
  · intro nTrain nTest model grid_best e hsplit hfit hmetrics
    unfold train_model
    simp only [hmt, halgo, hsplit, hfit, hmetrics, bind, Except.bind]
  · intro nTrain nTest model grid_best ms e hsplit hfit hmetrics hsave
    unfold train_model
    simp only [hmt, halgo, hsplit, hfit, hmetrics, hsave, bind, Except.bind]
  · intro mt2 h2
    unfold train_model
    simp only [h2]
  · intro algo2 h2
    unfold train_model
    simp only [hmt, h2]

/-- Witness for C1: a registered pair with all library steps succeeding
returns the success record, and the same pair with a failing split step
propagates the exception. -/
theorem C1_train_boundary_witness :
    train_model
      ⟨Except.ok (8, 2), Except.ok (⟨some [1], none⟩, [("n_estimators", "100")]),
        Except.ok [("accuracy", 1)], Except.ok "models/u/m_20260101.joblib",
        "2026-01-01T00:00:00"⟩
      "lead_conversion" "random_forest" ["f1"] "m" "u" =
      Except.ok
        { model_path := "models/u/m_20260101.joblib"
          metadata :=
            { model_type := "lead_conversion"
              algorithm := "random_forest"
              model_name := "m"
              user_id := "u"
              training_date := "2026-01-01T00:00:00"
              training_samples := 8
              test_samples := 2
              features := ["f1"]
              best_params := [("n_estimators", "100")]
              feature_importance := get_feature_importance ⟨some [1], none⟩ ["f1"]
              metrics := [("accuracy", 1)] }
          metrics := [("accuracy", 1)] } ∧
    train_model
      ⟨Except.error "train_test_split failed", Except.ok (⟨some [1], none⟩, []),
        Except.ok [("accuracy", 1)], Except.ok "models/u/m_20260101.joblib",
        "2026-01-01T00:00:00"⟩
      "lead_conversion" "random_forest" ["f1"] "m" "u" =
      Except.error "train_test_split failed" :=
  ⟨(C1_train_boundary
      ⟨Except.ok (8, 2), Except.ok (⟨some [1], none⟩, [("n_estimators", "100")]),
        Except.ok [("accuracy", 1)], Except.ok "models/u/m_20260101.joblib",
        "2026-01-01T00:00:00"⟩
      "lead_conversion" "random_forest" "m" "u" ["f1"]
      [("random_forest",
        ["n_estimators", "max_depth", "min_samples_split", "min_samples_leaf"]),
       ("gradient_boosting", ["n_estimators", "learning_rate", "max_depth"]),
       ("logistic_regression", ["C", "max_iter"]),
       ("neural_network",
        ["hidden_layer_sizes", "activation", "learning_rate", "max_iter"])]
      ["n_estimators", "max_depth", "min_samples_split", "min_samples_leaf"]
      rfl rfl).1
      8 2 ⟨some [1], none⟩ [("n_estimators", "100")] [("accuracy", 1)]
      "models/u/m_20260101.joblib" rfl rfl rfl rfl,
   (C1_train_boundary
      ⟨Except.error "train_test_split failed", Except.ok (⟨some [1], none⟩, []),
        Except.ok [("accuracy", 1)], Except.ok "models/u/m_20260101.joblib",
        "2026-01-01T00:00:00"⟩
      "lead_conversion" "random_forest" "m" "u" ["f1"]
      [("random_forest",
        ["n_estimators", "max_depth", "min_samples_split", "min_samples_leaf"]),
       ("gradient_boosting", ["n_estimators", "learning_rate", "max_depth"]),
       ("logistic_regression", ["C", "max_iter"]),
       ("neural_network",
        ["hidden_layer_sizes", "activation", "learning_rate", "max_iter"])]
      ["n_estimators", "max_depth", "min_samples_split", "min_samples_leaf"]
      rfl rfl).2.1
      "train_test_split failed" rfl⟩

end PrismAI
